import Mathlib

/-!
Shallow embedding of the resilience layer of the gollm-x client framework:
the backoff retry engine (`retry.go`), the token-bucket rate limiter
(`ratelimit.go`), the streaming result iterator (`StreamReader` in the
shared types file) and the provider registry (`Register`/`New`/`Providers`).

Durations (`time.Duration`, nanoseconds in Go) are embedded as rationals;
float arithmetic in the backoff computation is embedded as exact rational
arithmetic with the random sample `rng.Float64()` passed as an explicit
parameter `u`.  Go strings are embedded as `List Char` restricted to the
ASCII handling the source performs.
-/

/-- Embeds `ErrorType`, which categorizes API errors (types file, `const` block). -/
inductive ErrorType : Type
  | auth
  | rateLimit
  | invalidRequest
  | server
  | network
  | timeout
  | contentFilter
  | modelNotFound
  | quota
  | unknown
  deriving DecidableEq, Repr

/-- Embeds `APIError` from the shared types file.  `Raw` (an opaque payload) is
omitted; `RetryAfter : time.Duration` is a rational number of nanoseconds. -/
structure APIError : Type where
  type : ErrorType
  provider : String
  statusCode : Int
  message : String
  code : String
  param : String
  retryable : Bool
  retryAfter : ℚ
  deriving DecidableEq, Repr

/-- A Go `error` value as seen by this layer: either a structured `*APIError`
or a plain error (e.g. produced by `errors.New` / `fmt.Errorf`) carrying only
a message. -/
inductive Err : Type
  | api (e : APIError)
  | generic (msg : String)
  deriving DecidableEq, Repr

/-- The `Error()` method: an `APIError` formats as its message, a plain error
is its message. -/
def Err.errorString : Err → String
  | .api e => e.message
  | .generic m => m

/-- Predicate `Err.isStructured` is true exactly for structured `*APIError` values
(the Structured Error of the data model). -/
def Err.isStructured : Err → Bool
  | .api _ => true
  | .generic _ => false

/-- ASCII case folding of one character, as `equalFoldASCII` does byte-wise:
fold `A`-`Z` to `a`-`z`, leave everything else. -/
def foldCharASCII (c : Char) : Char :=
  if 'A' ≤ c ∧ c ≤ 'Z' then Char.ofNat (c.toNat + 32) else c

/-- Embeds `equalFoldASCII(a, b)` from retry.go: equal length and byte-wise equal
after ASCII case folding. -/
def equalFoldASCII (a b : List Char) : Bool :=
  a.length == b.length &&
    (List.zip a b).all fun p => foldCharASCII p.1 == foldCharASCII p.2

/-- Embeds `containsIgnoreCase(s, substr)` from retry.go: some window of `s` of the
length of `substr` matches it case-insensitively.  The Go loop walks the
windows by index; walking the suffixes is the same computation because
`equalFoldASCII` rejects short windows by the length test. -/
def containsIgnoreCase : List Char → List Char → Bool
  | s, sub =>
    if equalFoldASCII (s.take sub.length) sub then true
    else
      match s with
      | [] => false
      | _ :: rest => containsIgnoreCase rest sub

/-- Embeds `contains(s, substr)` from retry.go (case-insensitive containment with
its exact short-circuit structure). -/
def containsGo (s sub : List Char) : Bool :=
  decide (sub.length ≤ s.length) &&
    (s == sub || (decide (0 < s.length) && containsIgnoreCase s sub))

/-- The transient-network message patterns of `isNetworkError`. -/
def networkPatterns : List String :=
  [ "connection refused"
  , "connection reset"
  , "no such host"
  , "network is unreachable"
  , "i/o timeout"
  , "EOF"
  , "broken pipe"
  , "connection timed out" ]

/-- Embeds `isNetworkError(err)` from retry.go for a non-nil error: the formatted
message contains one of the recognized transient-network patterns. -/
def isNetworkError (e : Err) : Bool :=
  networkPatterns.any fun p => containsGo e.errorString.data p.data

/-- Embeds `RetryConfig` from retry.go.  `MaxRetries` is a Go `int` (embedded as
`Int`: the loop conditions compare it signed), delays are rationals. -/
structure RetryConfig : Type where
  maxRetries : Int
  initialDelay : ℚ
  maxDelay : ℚ
  multiplier : ℚ
  jitter : ℚ
  retryableTypes : List ErrorType

/-- One second in nanoseconds, the unit of `time.Duration`. -/
def nsPerSecond : ℚ := 1000000000

/-- Embeds `DefaultRetryConfig()` from retry.go. -/
def defaultRetryConfig : RetryConfig where
  maxRetries := 3
  initialDelay := 1 * nsPerSecond
  maxDelay := 30 * nsPerSecond
  multiplier := 2
  jitter := 1 / 10
  retryableTypes := [.rateLimit, .server, .network, .timeout]

/-- Embeds `Retryer.shouldRetry(err)` from retry.go: a structured `*APIError` is
retried iff its `Retryable` flag is set or its type is among the configured
retryable types (the message patterns are never consulted for it); any other
error is retried iff `isNetworkError` accepts its message. -/
def shouldRetry (cfg : RetryConfig) (e : Err) : Bool :=
  match e with
  | .api a => a.retryable || cfg.retryableTypes.contains a.type
  | .generic m => isNetworkError (.generic m)

/-- The `RetryAfter > 0` test opening `calculateDelay`: the explicit
retry-after duration of a structured error when positive, otherwise none.
(`calculateDelay` is also reached with a nil error, hence `Option Err`.) -/
def retryAfterPos : Option Err → Option ℚ
  | some (.api a) => if 0 < a.retryAfter then some a.retryAfter else none
  | _ => none

/-- Embeds `Retryer.calculateDelay(attempt, err)` from retry.go with the random
sample `u` (for `rng.Float64()`, a value in `[0,1)`) passed explicitly:
an explicit positive retry-after is returned verbatim; otherwise exponential
backoff `initialDelay * multiplier^attempt` capped at `maxDelay`, then
jitter `(u*2-1) * (delay*jitter)` added when the jitter factor is positive. -/
def calculateDelay (cfg : RetryConfig) (attempt : Nat) (err : Option Err)
    (u : ℚ) : ℚ :=
  match retryAfterPos err with
  | some ra => ra
  | none =>
    let d0 := cfg.initialDelay * cfg.multiplier ^ attempt
    let d1 := if cfg.maxDelay < d0 then cfg.maxDelay else d0
    if 0 < cfg.jitter then d1 + (u * 2 - 1) * (d1 * cfg.jitter) else d1

/-- The observable behavior of a Go `context.Context` during one `Do` call:
`errAt k` is what `ctx.Err()` returns at the top-of-loop check before the
`k`-th attempt; `doneDuringWait k` tells whether `ctx.Done()` wins the
`select` during the wait after the `k`-th attempt; `errValue` is the fixed
value `ctx.Err()` carries once the context is done. -/
structure GoCtx : Type where
  errAt : Nat → Option Err
  doneDuringWait : Nat → Bool
  errValue : Err

/-- A context that is never cancelled and carries no deadline. -/
def GoCtx.never : GoCtx where
  errAt := fun _ => none
  doneDuringWait := fun _ => false
  errValue := .generic "context canceled"

/-- The loop of `Retryer.Do` from retry.go, instrumented with the number of
invocations of `fn` performed so far.  `fn k` is the error returned by the
`k`-th invocation (`none` is success).  The rational returned by
`calculateDelay` (with `rng k` the random sample for attempt `k`) does not
influence control flow: `time.After(delay)` always eventually fires unless
`ctx.Done()` wins the select, which `ctx.doneDuringWait` records. -/
def doAux (cfg : RetryConfig) (ctx : GoCtx) (rng : Nat → ℚ)
    (fn : Nat → Option Err) (attempt : Nat) (lastErr : Option Err)
    (count : Nat) : Option Err × Nat :=
  if _h1 : (attempt : Int) ≤ cfg.maxRetries then
    match ctx.errAt attempt with
    | some e => (some e, count)
    | none =>
      match fn attempt with
      | none => (none, count + 1)
      | some e =>
        if shouldRetry cfg e = false then (some e, count + 1)
        else if h2 : cfg.maxRetries ≤ (attempt : Int) then (some e, count + 1)
        else
          let _delay := calculateDelay cfg attempt (some e) (rng attempt)
          if ctx.doneDuringWait attempt then (some ctx.errValue, count + 1)
          else doAux cfg ctx rng fn (attempt + 1) (some e) (count + 1)
  else (lastErr, count)
termination_by (cfg.maxRetries + 1 - (attempt : Int)).toNat
decreasing_by omega

/-- Embeds `Retryer.Do(ctx, fn)` from retry.go, returning the error outcome paired
with the number of invocations of `fn`. -/
def retryerDo (cfg : RetryConfig) (ctx : GoCtx) (rng : Nat → ℚ)
    (fn : Nat → Option Err) : Option Err × Nat :=
  doAux cfg ctx rng fn 0 none 0

/-- The loop of `DoWithResult` from retry.go (generic in the result type;
`default` embeds Go's zero value `var result T`), instrumented with the
invocation count.  `fn k` is the `(result, error)` pair of the `k`-th
invocation. -/
def doWithResultAux {T : Type} [Inhabited T] (cfg : RetryConfig) (ctx : GoCtx)
    (rng : Nat → ℚ) (fn : Nat → T × Option Err) (attempt : Nat)
    (lastErr : Option Err) (count : Nat) : T × Option Err × Nat :=
  if _h1 : (attempt : Int) ≤ cfg.maxRetries then
    match ctx.errAt attempt with
    | some e => (default, some e, count)
    | none =>
      match (fn attempt).2 with
      | none => ((fn attempt).1, none, count + 1)
      | some e =>
        if shouldRetry cfg e = false then (default, some e, count + 1)
        else if h2 : cfg.maxRetries ≤ (attempt : Int) then
          (default, some e, count + 1)
        else
          let _delay := calculateDelay cfg attempt (some e) (rng attempt)
          if ctx.doneDuringWait attempt then
            (default, some ctx.errValue, count + 1)
          else doWithResultAux cfg ctx rng fn (attempt + 1) (some e) (count + 1)
  else (default, lastErr, count)
termination_by (cfg.maxRetries + 1 - (attempt : Int)).toNat
decreasing_by omega

/-- Embeds `DoWithResult(ctx, r, fn)` from retry.go, with the invocation count. -/
def doWithResult {T : Type} [Inhabited T] (cfg : RetryConfig) (ctx : GoCtx)
    (rng : Nat → ℚ) (fn : Nat → T × Option Err) : T × Option Err × Nat :=
  doWithResultAux cfg ctx rng fn 0 none 0

/-- Embeds the `RateLimiter` state from ratelimit.go (the mutex is not part of the
sequential embedding).  Token counts are Go float64 values, embedded as
rationals; `lastRefill` is a timestamp in seconds, `waitTimeout` a duration. -/
structure RateLimiter : Type where
  tokens : ℚ
  maxTokens : ℚ
  refillRate : ℚ
  lastRefill : ℚ
  waitTimeout : ℚ
  deriving DecidableEq, Repr

/-- Embeds `RateLimitConfig` from ratelimit.go. Go `int` fields are `Int`. -/
structure RateLimitConfig : Type where
  requestsPerMinute : Int
  burstSize : Int
  waitTimeout : ℚ

/-- Embeds `DefaultRateLimitConfig()` from ratelimit.go. -/
def defaultRateLimitConfig : RateLimitConfig where
  requestsPerMinute := 60
  burstSize := 6
  waitTimeout := 30 * nsPerSecond

/-- The effective burst size computed by `NewRateLimiter`: the configured
burst when positive, else `RequestsPerMinute / 10` (Go integer division)
floored at 1. -/
def effectiveBurst (c : RateLimitConfig) : Int :=
  if c.burstSize ≤ 0 then
    if c.requestsPerMinute / 10 < 1 then 1 else c.requestsPerMinute / 10
  else c.burstSize

/-- Embeds `NewRateLimiter(config)` from ratelimit.go at creation time `now`:
`none` embeds the nil limiter returned for a non-positive rate (rate
limiting disabled); otherwise the bucket starts full at the effective burst
size and refills at `RequestsPerMinute / 60` tokens per second. -/
def newRateLimiter (config : Option RateLimitConfig) (now : ℚ) :
    Option RateLimiter :=
  let c := config.getD defaultRateLimitConfig
  if c.requestsPerMinute ≤ 0 then none
  else
    some
      { tokens := (effectiveBurst c : ℚ)
        maxTokens := (effectiveBurst c : ℚ)
        refillRate := (c.requestsPerMinute : ℚ) / 60
        lastRefill := now
        waitTimeout := c.waitTimeout }

/-- Embeds `RateLimiter.refill()` from ratelimit.go, with the clock reading `now`
passed explicitly: add `elapsed * refillRate` tokens, cap at `maxTokens`,
stamp `lastRefill`. -/
def RateLimiter.refill (r : RateLimiter) (now : ℚ) : RateLimiter :=
  let elapsed := now - r.lastRefill
  let t0 := r.tokens + elapsed * r.refillRate
  let t1 := if r.maxTokens < t0 then r.maxTokens else t0
  { r with tokens := t1, lastRefill := now }

/-- Embeds `RateLimiter.TryAcquire()` from ratelimit.go for a non-nil limiter, with
the clock reading passed explicitly: refill, then consume one token if at
least one is available. -/
def RateLimiter.tryAcquire (r : RateLimiter) (now : ℚ) : Bool × RateLimiter :=
  let r := r.refill now
  if 1 ≤ r.tokens then (true, { r with tokens := r.tokens - 1 }) else (false, r)

/-- Runs `n` consecutive `TryAcquire` calls at a fixed clock reading, collecting
the returned booleans. -/
def RateLimiter.tryAcquireN (r : RateLimiter) (now : ℚ) :
    Nat → List Bool × RateLimiter
  | 0 => ([], r)
  | n + 1 =>
    let p := r.tryAcquire now
    let q := p.2.tryAcquireN now n
    (p.1 :: q.1, q.2)

/-- Why `ctx.Done()` fired inside `Acquire`: the caller's context was
cancelled, or the deadline `Acquire` itself installed from `waitTimeout`
expired.  `Acquire` receives both through the one combined channel. -/
inductive DoneCause : Type
  | cancelled
  | waitTimeoutExpired
  deriving DecidableEq, Repr

/-- The error literal `Acquire` returns when `ctx.Done()` wins its select:
`&APIError{Type: ErrorTypeRateLimit, Message: "rate limit wait timeout"}`
(all other fields zero-valued). -/
def rateLimitWaitError : Err :=
  .api
    { type := .rateLimit
      provider := ""
      statusCode := 0
      message := "rate limit wait timeout"
      code := ""
      param := ""
      retryable := false
      retryAfter := 0 }

/-- The loop of `RateLimiter.Acquire(ctx)` from ratelimit.go for a non-nil
limiter.  `times k` is the clock reading at the `k`-th iteration's refill;
`done k` tells whether (and why) `ctx.Done()` wins the `select` of the
`k`-th iteration.  A successful iteration consumes a token and returns
`none` (Go's nil error); otherwise the computed `waitTime` sleep either
completes (next iteration) or loses to `ctx.Done()`, upon which the fixed
`rateLimitWaitError` is returned whatever the cause.  `fuel` bounds the
number of modelled iterations (`none` = fuel exhausted). -/
def acquireAux (times : Nat → ℚ) (done : Nat → Option DoneCause)
    (r : RateLimiter) (k : Nat) : Nat → Option (Option Err × RateLimiter)
  | 0 => none
  | fuel + 1 =>
    let r := r.refill (times k)
    if 1 ≤ r.tokens then some (none, { r with tokens := r.tokens - 1 })
    else
      let _waitTime := (1 - r.tokens) / r.refillRate
      match done k with
      | some _ => some (some rateLimitWaitError, r)
      | none => acquireAux times done r (k + 1) fuel

/-- Embeds `RateLimiter.Acquire`, running from the first iteration. -/
def RateLimiter.acquire (r : RateLimiter) (times : Nat → ℚ)
    (done : Nat → Option DoneCause) (fuel : Nat) :
    Option (Option Err × RateLimiter) :=
  acquireAux times done r 0 fuel

/-- Embeds `Usage` from the shared types file. -/
structure Usage : Type where
  promptTokens : Int
  completionTokens : Int
  totalTokens : Int
  deriving DecidableEq, Repr

/-- Embeds `FunctionCall` from the shared types file. -/
structure FunctionCall : Type where
  name : String
  arguments : String
  deriving DecidableEq, Repr

/-- Embeds `ToolCall` from the shared types file. -/
structure ToolCall : Type where
  id : String
  type : String
  function : FunctionCall
  deriving DecidableEq, Repr

/-- Embeds `StreamChunk` from the shared types file: one fragment of a streaming
response, optionally carrying a terminal error. -/
structure StreamChunk : Type where
  id : String
  provider : String
  model : String
  content : String
  toolCalls : List ToolCall
  finishReason : String
  usage : Usage
  error : Option Err
  deriving DecidableEq, Repr

/-- Embeds `StreamReader` from the shared types file.  The hand-off channel is
embedded as the list of fragments the producer will still deliver before
closing: receiving on the empty list is receiving on a closed channel. -/
structure StreamReader : Type where
  ch : List StreamChunk
  err : Option Err
  closed : Bool
  deriving DecidableEq, Repr

/-- Embeds `StreamReader.Next()` from the shared types file: returns
`(chunk, true)` for a clean fragment; `(nil, false)` once `closed`, when the
channel is closed (then recording `closed`), or when the received fragment
carries an error (then recording the error — note `closed` is not set on
this path). -/
def StreamReader.next (r : StreamReader) :
    Option StreamChunk × Bool × StreamReader :=
  if r.closed then (none, false, r)
  else
    match r.ch with
    | [] => (none, false, { r with closed := true })
    | c :: rest =>
      if c.error.isSome then (none, false, { r with ch := rest, err := c.error })
      else (some c, true, { r with ch := rest })

/-- Embeds `StreamReader.Err()` from the shared types file. -/
def StreamReader.errGo (r : StreamReader) : Option Err :=
  r.err

/-- Runs `n` successive `Next()` calls, collecting the `(chunk, ok)` pairs. -/
def StreamReader.nextN (r : StreamReader) :
    Nat → List (Option StreamChunk × Bool) × StreamReader
  | 0 => ([], r)
  | n + 1 =>
    let p := r.next
    let q := p.2.2.nextN n
    ((p.1, p.2.1) :: q.1, q.2)

/-- The provider registry (`registry` map in the core package), embedded as
an association list with map semantics: `F` is the factory type.  The mutex
is not part of the sequential embedding. -/
structure Registry (F : Type) : Type where
  entries : List (String × F)

/-- Embeds `Register(id, factory)`: stores or overwrites the mapping for `id`
(Go map assignment: last write wins, keys stay unique). -/
def Registry.registerGo {F : Type} (reg : Registry F) (id : String) (f : F) :
    Registry F :=
  ⟨reg.entries.filter (fun p => p.1 ≠ id) ++ [(id, f)]⟩

/-- Map lookup `registry[providerID]`. -/
def Registry.lookup {F : Type} (reg : Registry F) (id : String) : Option F :=
  (reg.entries.find? (fun p => p.1 == id)).map (·.2)

/-- Embeds `Providers()`: the identifiers of all registered providers. -/
def Registry.providers {F : Type} (reg : Registry F) : List String :=
  reg.entries.map (·.1)

/-- Go's `fmt` `%v` rendering of a string slice: elements space-separated
inside brackets. -/
def fmtStringSlice (xs : List String) : String :=
  "[" ++ String.intercalate " " xs ++ "]"

/-- Embeds `New(providerID, opts...)` from the core package: look up the factory
and run it, or fail with the `fmt.Errorf` message
`"unknown provider: %s (available: %v)"` — a plain error, not an
`APIError`.  `run f` embeds `factory(opts...)`. -/
def gollmxNew {F α : Type} (reg : Registry F) (id : String)
    (run : F → Except Err α) : Except Err α :=
  match reg.lookup id with
  | some f => run f
  | none =>
    .error (.generic ("unknown provider: " ++ id ++ " (available: " ++
      fmtStringSlice reg.providers ++ ")"))

/-! Theorems settling the claims about the embedded operations. -/

@[simp]
lemma GoCtx.never_errAt (k : Nat) : GoCtx.never.errAt k = none := rfl

@[simp]
lemma GoCtx.never_doneDuringWait (k : Nat) :
    GoCtx.never.doneDuringWait k = false := rfl

lemma doAux_allFail (cfg : RetryConfig) (rng : Nat → ℚ) (f : Nat → Err)
    (hr : ∀ k, shouldRetry cfg (f k) = true) :
    ∀ (n a : Nat) (la : Option Err) (c : Nat),
      cfg.maxRetries.toNat - a = n → (a : Int) ≤ cfg.maxRetries →
      doAux cfg .never rng (fun k => some (f k)) a la c =
        (some (f cfg.maxRetries.toNat), c + n + 1) := by
  intro n
  induction n with
  | zero =>
    intro a la c h1 h2
    have ha : a = cfg.maxRetries.toNat := by omega
    have hm : cfg.maxRetries ≤ (a : Int) := by omega
    have h0 : (0 : Int) ≤ cfg.maxRetries := by omega
    rw [doAux]
    simp [hr a, h2, hm, ha, h0]
  | succ n ih =>
    intro a la c h1 h2
    have hlt : ¬ cfg.maxRetries ≤ (a : Int) := by omega
    rw [doAux]
    simp [hr a, h2, hlt]
    rw [ih (a + 1) (some (f a)) (c + 1) (by omega) (by omega)]
    simp only [Prod.mk.injEq, true_and]
    omega

lemma doWithResultAux_allFail {T : Type} [Inhabited T] (cfg : RetryConfig)
    (rng : Nat → ℚ) (vals : Nat → T) (f : Nat → Err)
    (hr : ∀ k, shouldRetry cfg (f k) = true) :
    ∀ (n a : Nat) (la : Option Err) (c : Nat),
      cfg.maxRetries.toNat - a = n → (a : Int) ≤ cfg.maxRetries →
      doWithResultAux cfg .never rng (fun k => (vals k, some (f k))) a la c =
        (default, some (f cfg.maxRetries.toNat), c + n + 1) := by
  intro n
  induction n with
  | zero =>
    intro a la c h1 h2
    have ha : a = cfg.maxRetries.toNat := by omega
    have hm : cfg.maxRetries ≤ (a : Int) := by omega
    have h0 : (0 : Int) ≤ cfg.maxRetries := by omega
    rw [doWithResultAux]
    simp [hr a, h2, hm, ha, h0]
  | succ n ih =>
    intro a la c h1 h2
    have hlt : ¬ cfg.maxRetries ≤ (a : Int) := by omega
    rw [doWithResultAux]
    simp [hr a, h2, hlt]
    rw [ih (a + 1) (some (f a)) (c + 1) (by omega) (by omega)]
    simp only [Prod.mk.injEq, true_and]
    omega

/-- C1: with max attempts `N ≥ 0` and an operation failing every invocation
with a retryable error, `Retryer.Do` and `DoWithResult` invoke the operation
exactly `N + 1` times and return the last attempt's error (`DoWithResult`
additionally returns the zero value of the result type). -/
theorem retry_allFail_invokes_n_plus_one (cfg : RetryConfig) (N : Nat)
    (rng rng2 : Nat → ℚ) (f : Nat → Err) {T : Type} [Inhabited T]
    (vals : Nat → T) (hN : cfg.maxRetries = (N : Int))
    (hr : ∀ k, shouldRetry cfg (f k) = true) :
    retryerDo cfg .never rng (fun k => some (f k)) = (some (f N), N + 1) ∧
    doWithResult cfg .never rng2 (fun k => (vals k, some (f k))) =
      (default, some (f N), N + 1) := by
  have hM : cfg.maxRetries.toNat = N := by omega
  constructor
  · have := doAux_allFail cfg rng f hr N 0 none 0 (by omega) (by omega)
    simpa [retryerDo, hM] using this
  · have := doWithResultAux_allFail cfg rng2 vals f hr N 0 none 0
      (by omega) (by omega)
    simpa [doWithResult, hM] using this

/-- Witness for C1 at a concrete policy (max retries 2) and a concrete
always-failing retryable error. -/
theorem retry_allFail_invokes_n_plus_one_witness :
    ({ maxRetries := 2, initialDelay := 1, maxDelay := 30, multiplier := 2,
       jitter := 0, retryableTypes := [.server] } : RetryConfig).maxRetries =
      ((2 : Nat) : Int) ∧
    (retryerDo
        { maxRetries := 2, initialDelay := 1, maxDelay := 30, multiplier := 2,
          jitter := 0, retryableTypes := [.server] } .never (fun _ => 0)
        (fun _ => some (.generic "connection refused")) =
      (some (.generic "connection refused"), 3) ∧
    doWithResult
        { maxRetries := 2, initialDelay := 1, maxDelay := 30, multiplier := 2,
          jitter := 0, retryableTypes := [.server] } .never (fun _ => 0)
        (fun _ => ((7 : Int), some (.generic "connection refused"))) =
      ((default : Int), some (.generic "connection refused"), 3)) :=
  by
  refine ⟨rfl,
    retry_allFail_invokes_n_plus_one
      { maxRetries := 2, initialDelay := 1, maxDelay := 30, multiplier := 2,
        jitter := 0, retryableTypes := [.server] } 2 (fun _ => 0) (fun _ => 0)
      (fun _ => .generic "connection refused") (fun _ => (7 : Int)) rfl ?_⟩
  intro k
  change shouldRetry
      { maxRetries := 2, initialDelay := 1, maxDelay := 30, multiplier := 2,
        jitter := 0, retryableTypes := [.server] }
      (.generic "connection refused") = true
  decide

/-- C10: a retry configuration with `MaxRetries < 0` makes `Retryer.Do`
return a nil error without invoking the operation, and `DoWithResult`
return the zero value and nil error without invoking it. -/
theorem retry_negative_skips_operation (cfg : RetryConfig) (ctx : GoCtx)
    (rng rng2 : Nat → ℚ) (fn : Nat → Option Err) {T : Type} [Inhabited T]
    (g : Nat → T × Option Err) (h : cfg.maxRetries < 0) :
    retryerDo cfg ctx rng fn = (none, 0) ∧
    doWithResult cfg ctx rng2 g = (default, none, 0) := by
  have h0 : ¬ (0 : Int) ≤ cfg.maxRetries := by omega
  constructor
  · rw [retryerDo, doAux]
    simp [h0]
  · rw [doWithResult, doWithResultAux]
    simp [h0]

/-- Witness for C10 at `MaxRetries = -1`. -/
theorem retry_negative_skips_operation_witness :
    ({ maxRetries := -1, initialDelay := 1, maxDelay := 30, multiplier := 2,
       jitter := 0, retryableTypes := [] } : RetryConfig).maxRetries < 0 ∧
    (retryerDo
        { maxRetries := -1, initialDelay := 1, maxDelay := 30, multiplier := 2,
          jitter := 0, retryableTypes := [] } .never (fun _ => 0)
        (fun _ => some (.generic "boom")) = (none, 0) ∧
    doWithResult
        { maxRetries := -1, initialDelay := 1, maxDelay := 30, multiplier := 2,
          jitter := 0, retryableTypes := [] } .never (fun _ => 0)
        (fun _ => ((7 : Int), some (.generic "boom"))) =
      ((default : Int), none, 0)) :=
  ⟨by decide,
    retry_negative_skips_operation
      { maxRetries := -1, initialDelay := 1, maxDelay := 30, multiplier := 2,
        jitter := 0, retryableTypes := [] } .never (fun _ => 0) (fun _ => 0)
      (fun _ => some (.generic "boom"))
      (fun _ => ((7 : Int), some (.generic "boom"))) (by decide)⟩

/-- C6: with jitter 0 and no explicit retry-after, the computed delay before
retrying attempt `k` (0-indexed) is exactly `min (d * m ^ k) M`. -/
theorem calculateDelay_no_jitter_exact (cfg : RetryConfig) (err : Option Err)
    (u : ℚ) (attempt : Nat) (hj : cfg.jitter = 0)
    (hra : retryAfterPos err = none) :
    calculateDelay cfg attempt err u =
      min (cfg.initialDelay * cfg.multiplier ^ attempt) cfg.maxDelay := by
  unfold calculateDelay
  rw [hra, hj, min_def]
  simp only [lt_irrefl, if_false]
  split_ifs with h1 h2 h2 <;> linarith

/-- Witness for C6 at a concrete policy (d = 100, m = 2, M = 1000, jitter 0)
and attempt 4, where the exponential term overtakes the cap. -/
theorem calculateDelay_no_jitter_exact_witness :
    retryAfterPos none = none ∧
    calculateDelay
        { maxRetries := 3, initialDelay := 100, maxDelay := 1000,
          multiplier := 2, jitter := 0, retryableTypes := [] } 4 none 0 =
      min ((100 : ℚ) * 2 ^ 4) 1000 :=
  ⟨rfl,
    calculateDelay_no_jitter_exact
      { maxRetries := 3, initialDelay := 100, maxDelay := 1000,
        multiplier := 2, jitter := 0, retryableTypes := [] } none 0 4 rfl rfl⟩

/-- Counterexample to C5 as stated: an error carrying an explicit
retry-after duration bypasses the max-delay clamp entirely, so the waited
delay can exceed `max delay * (1 + jitter)` (here 1000 > 10 * (1 + 0)). -/
theorem calculateDelay_retryAfter_exceeds_cap :
    calculateDelay
        { maxRetries := 3, initialDelay := 1, maxDelay := 10, multiplier := 2,
          jitter := 0, retryableTypes := [] } 0
        (some (.api
          { type := .rateLimit, provider := "", statusCode := 0,
            message := "", code := "", param := "", retryable := true,
            retryAfter := 1000 })) 0 = 1000 ∧
    ¬ calculateDelay
        { maxRetries := 3, initialDelay := 1, maxDelay := 10, multiplier := 2,
          jitter := 0, retryableTypes := [] } 0
        (some (.api
          { type := .rateLimit, provider := "", statusCode := 0,
            message := "", code := "", param := "", retryable := true,
            retryAfter := 1000 })) 0 ≤ (10 : ℚ) * (1 + 0) := by
  constructor
  · rfl
  · rw [show calculateDelay
        { maxRetries := 3, initialDelay := 1, maxDelay := 10, multiplier := 2,
          jitter := 0, retryableTypes := [] } 0
        (some (.api
          { type := .rateLimit, provider := "", statusCode := 0,
            message := "", code := "", param := "", retryable := true,
            retryAfter := 1000 })) 0 = 1000 from rfl]
    norm_num

/-- C5 as amended: for errors without an explicit retry-after duration, the
delay is the max-delay-clamped backoff perturbed by exactly
`(2u - 1) * jitter` of itself, and therefore never exceeds
`max delay * (1 + jitter)` for jitter in `[0,1]`, `u` in `[0,1]`, and a
nonnegative max delay. -/
theorem calculateDelay_clamped_bound (cfg : RetryConfig) (err : Option Err)
    (u : ℚ) (attempt : Nat) (hra : retryAfterPos err = none)
    (hj0 : 0 ≤ cfg.jitter) (hj1 : cfg.jitter ≤ 1) (hu0 : 0 ≤ u) (hu1 : u ≤ 1)
    (hM : 0 ≤ cfg.maxDelay) :
    calculateDelay cfg attempt err u =
      min (cfg.initialDelay * cfg.multiplier ^ attempt) cfg.maxDelay +
        (u * 2 - 1) *
          (min (cfg.initialDelay * cfg.multiplier ^ attempt) cfg.maxDelay *
            cfg.jitter) ∧
    calculateDelay cfg attempt err u ≤ cfg.maxDelay * (1 + cfg.jitter) := by
  have hclamp :
      (if cfg.maxDelay < cfg.initialDelay * cfg.multiplier ^ attempt then
          cfg.maxDelay
        else cfg.initialDelay * cfg.multiplier ^ attempt) =
      min (cfg.initialDelay * cfg.multiplier ^ attempt) cfg.maxDelay := by
    rw [min_def]
    split_ifs <;> linarith
  have hval : calculateDelay cfg attempt err u =
      min (cfg.initialDelay * cfg.multiplier ^ attempt) cfg.maxDelay +
        (u * 2 - 1) *
          (min (cfg.initialDelay * cfg.multiplier ^ attempt) cfg.maxDelay *
            cfg.jitter) := by
    unfold calculateDelay
    rw [hra]
    simp only [hclamp]
    split_ifs with h
    · ring
    · have hj : cfg.jitter = 0 := le_antisymm (not_lt.1 h) hj0
      rw [hj]
      ring
  refine ⟨hval, ?_⟩
  rw [hval]
  set m := min (cfg.initialDelay * cfg.multiplier ^ attempt) cfg.maxDelay
    with hm
  have hmM : m ≤ cfg.maxDelay := min_le_right _ _
  have hfac : 0 ≤ 1 + (u * 2 - 1) * cfg.jitter := by nlinarith
  nlinarith [mul_nonneg (sub_nonneg.2 hmM) hfac,
    mul_nonneg (mul_nonneg hM hj0) (by linarith : (0 : ℚ) ≤ 2 - 2 * u)]

/-- Witness for the amended C5 at the default policy (jitter 0.1), attempt 0,
`u = 1`, and a generic error. -/
theorem calculateDelay_clamped_bound_witness :
    retryAfterPos (some (.generic "connection refused")) = none ∧
    (calculateDelay defaultRetryConfig 0 (some (.generic "connection refused"))
        1 =
      min (defaultRetryConfig.initialDelay * defaultRetryConfig.multiplier ^ 0)
          defaultRetryConfig.maxDelay +
        (1 * 2 - 1) *
          (min (defaultRetryConfig.initialDelay *
              defaultRetryConfig.multiplier ^ 0) defaultRetryConfig.maxDelay *
            defaultRetryConfig.jitter) ∧
    calculateDelay defaultRetryConfig 0 (some (.generic "connection refused"))
        1 ≤
      defaultRetryConfig.maxDelay * (1 + defaultRetryConfig.jitter)) :=
  ⟨rfl,
    calculateDelay_clamped_bound defaultRetryConfig
      (some (.generic "connection refused")) 1 0 rfl (by norm_num
        [defaultRetryConfig]) (by norm_num [defaultRetryConfig]) (by norm_num)
      (by norm_num) (by norm_num [defaultRetryConfig, nsPerSecond])⟩

/-- The classification the claim states, written from the spec's words: an
error is retryable if it explicitly declares itself retryable, OR its kind
is in the configured retryable-kinds set, OR its message matches one of the
recognized transient-network patterns. -/
def claimRetryable (cfg : RetryConfig) (e : Err) : Bool :=
  (match e with
    | .api a => a.retryable
    | .generic _ => false) ||
  (match e with
    | .api a => cfg.retryableTypes.contains a.type
    | .generic _ => false) ||
  isNetworkError e

/-- Counterexample to C2 as stated: a structured `APIError` of an
unconfigured kind whose message matches the transient-network pattern
"connection refused" is retryable under the claim's classification, yet
`shouldRetry` rejects it (message patterns are never consulted for
structured errors), and `Do` under the default policy returns it after a
single invocation instead of retrying. -/
theorem shouldRetry_ignores_api_message_patterns :
    claimRetryable defaultRetryConfig
        (.api
          { type := .unknown, provider := "", statusCode := 0,
            message := "connection refused", code := "", param := "",
            retryable := false, retryAfter := 0 }) = true ∧
    shouldRetry defaultRetryConfig
        (.api
          { type := .unknown, provider := "", statusCode := 0,
            message := "connection refused", code := "", param := "",
            retryable := false, retryAfter := 0 }) = false ∧
    retryerDo defaultRetryConfig .never (fun _ => 0)
        (fun _ => some (.api
          { type := .unknown, provider := "", statusCode := 0,
            message := "connection refused", code := "", param := "",
            retryable := false, retryAfter := 0 })) =
      (some (.api
          { type := .unknown, provider := "", statusCode := 0,
            message := "connection refused", code := "", param := "",
            retryable := false, retryAfter := 0 }), 1) := by
  refine ⟨by decide, by decide, ?_⟩
  rw [retryerDo, doAux]
  norm_num
  decide

/-- C2 as amended: a structured `APIError` is classified retryable iff it
declares itself retryable or its kind is in the configured set (its message
is never matched against the network patterns); a plain error is retryable
iff its message matches the patterns; and any error classified
non-retryable is returned after exactly one invocation of the operation by
both `Do` and `DoWithResult`, for any policy with max attempts `≥ 0`. -/
theorem shouldRetry_classification_and_single_attempt (cfg : RetryConfig)
    {T : Type} [Inhabited T] (h0 : 0 ≤ cfg.maxRetries) :
    (∀ a : APIError,
      shouldRetry cfg (.api a) =
        (a.retryable || cfg.retryableTypes.contains a.type)) ∧
    (∀ m : String,
      shouldRetry cfg (.generic m) = isNetworkError (.generic m)) ∧
    (∀ (e : Err), shouldRetry cfg e = false →
      ∀ (rng : Nat → ℚ) (fn : Nat → Option Err), fn 0 = some e →
        retryerDo cfg .never rng fn = (some e, 1)) ∧
    (∀ (e : Err), shouldRetry cfg e = false →
      ∀ (rng : Nat → ℚ) (g : Nat → T × Option Err), (g 0).2 = some e →
        doWithResult cfg .never rng g = (default, some e, 1)) := by
  refine ⟨fun a => rfl, fun m => rfl, ?_, ?_⟩
  · intro e he rng fn hfn
    rw [retryerDo, doAux]
    simp [h0, hfn, he]
  · intro e he rng g hg
    rw [doWithResult, doWithResultAux]
    simp [h0, hg, he]

/-- Witness for the amended C2 at the default policy. -/
theorem shouldRetry_classification_and_single_attempt_witness :
    (0 : Int) ≤ defaultRetryConfig.maxRetries ∧
    ((∀ a : APIError,
      shouldRetry defaultRetryConfig (.api a) =
        (a.retryable || defaultRetryConfig.retryableTypes.contains a.type)) ∧
    (∀ m : String,
      shouldRetry defaultRetryConfig (.generic m) =
        isNetworkError (.generic m)) ∧
    (∀ (e : Err), shouldRetry defaultRetryConfig e = false →
      ∀ (rng : Nat → ℚ) (fn : Nat → Option Err), fn 0 = some e →
        retryerDo defaultRetryConfig .never rng fn = (some e, 1)) ∧
    (∀ (e : Err), shouldRetry defaultRetryConfig e = false →
      ∀ (rng : Nat → ℚ) (g : Nat → Int × Option Err), (g 0).2 = some e →
        doWithResult defaultRetryConfig .never rng g =
          ((default : Int), some e, 1))) :=
  ⟨by decide,
    shouldRetry_classification_and_single_attempt defaultRetryConfig
      (by decide)⟩

lemma RateLimiter.refill_fixed (r : RateLimiter) (now : ℚ)
    (hl : r.lastRefill = now) (hm : r.tokens ≤ r.maxTokens) :
    r.refill now = r := by
  obtain ⟨t, mt, rr, lr, wt⟩ := r
  simp only [RateLimiter.refill, RateLimiter.mk.injEq]
  simp only at hl hm
  subst hl
  simp [sub_self, if_neg (not_lt.2 hm)]

lemma tryAcquireN_drain (now : ℚ) :
    ∀ (n : Nat) (r : RateLimiter), r.tokens = (n : ℚ) →
      r.tokens ≤ r.maxTokens → r.lastRefill = now →
      (r.tryAcquireN now (n + 1)).1 = List.replicate n true ++ [false] ∧
      (r.tryAcquireN now (n + 1)).2.tokens = 0 := by
  intro n
  induction n with
  | zero =>
    intro r ht hm hl
    have hrefill : r.refill now = r := RateLimiter.refill_fixed r now hl hm
    have hlt : ¬ (1 : ℚ) ≤ r.tokens := by rw [ht]; norm_num
    simp [RateLimiter.tryAcquireN, RateLimiter.tryAcquire, hrefill, hlt, ht]
    norm_num
    exact_mod_cast ht
  | succ n ih =>
    intro r ht hm hl
    have hrefill : r.refill now = r := RateLimiter.refill_fixed r now hl hm
    have h1 : (1 : ℚ) ≤ r.tokens := by
      rw [ht]; push_cast; linarith [Nat.cast_nonneg (α := ℚ) n]
    have hstep :
        r.tryAcquire now = (true, { r with tokens := r.tokens - 1 }) := by
      simp [RateLimiter.tryAcquire, hrefill, h1]
    have ihap := ih { r with tokens := r.tokens - 1 }
      (by simp only [ht]; push_cast; ring) (by simp only []; linarith)
      (by simp only [hl])
    show (r.tryAcquireN now (n + 1 + 1)).1 = _ ∧ _
    rw [RateLimiter.tryAcquireN, hstep]
    simp only [List.replicate_succ, List.cons_append]
    exact ⟨by rw [ihap.1], ihap.2⟩

/-- C7: a rate limiter created from a configuration with a positive request
rate starts with its bucket full at the effective burst capacity `C`; `C`
consecutive `TryAcquire` calls with no elapsed time all succeed and the
`(C+1)`-th fails. -/
theorem tryAcquire_burst_then_fail (config : RateLimitConfig) (now : ℚ)
    (h : 1 ≤ config.requestsPerMinute) :
    ∃ r : RateLimiter,
      newRateLimiter (some config) now = some r ∧
      r.tokens = ((effectiveBurst config).toNat : ℚ) ∧
      r.tokens = r.maxTokens ∧
      (r.tryAcquireN now ((effectiveBurst config).toNat + 1)).1 =
        List.replicate (effectiveBurst config).toNat true ++ [false] := by
  have hrpm : ¬ config.requestsPerMinute ≤ 0 := by omega
  have hb : 1 ≤ effectiveBurst config := by
    unfold effectiveBurst
    split_ifs <;> omega
  have hcast : ((effectiveBurst config : Int) : ℚ) =
      ((effectiveBurst config).toNat : ℚ) := by
    exact_mod_cast congrArg (fun z : Int => (z : ℚ))
      (Int.toNat_of_nonneg (by omega)).symm
  refine ⟨{ tokens := ((effectiveBurst config : Int) : ℚ)
            maxTokens := ((effectiveBurst config : Int) : ℚ)
            refillRate := ((config.requestsPerMinute : Int) : ℚ) / 60
            lastRefill := now
            waitTimeout := config.waitTimeout }, ?_, hcast, rfl, ?_⟩
  · simp [newRateLimiter, hrpm]
  · exact (tryAcquireN_drain now (effectiveBurst config).toNat _ hcast
      le_rfl rfl).1

/-- Witness for C7 at the default rate-limit configuration (burst 6). -/
theorem tryAcquire_burst_then_fail_witness :
    (1 : Int) ≤ defaultRateLimitConfig.requestsPerMinute ∧
    (∃ r : RateLimiter,
      newRateLimiter (some defaultRateLimitConfig) 0 = some r ∧
      r.tokens = ((effectiveBurst defaultRateLimitConfig).toNat : ℚ) ∧
      r.tokens = r.maxTokens ∧
      (r.tryAcquireN 0 ((effectiveBurst defaultRateLimitConfig).toNat + 1)).1 =
        List.replicate (effectiveBurst defaultRateLimitConfig).toNat true ++
          [false]) :=
  ⟨by decide, tryAcquire_burst_then_fail defaultRateLimitConfig 0 (by decide)⟩

/-- C3 as amended: any error `Acquire` ever returns — whether `ctx.Done()`
fired because the caller cancelled or because the limiter's own wait-timeout
deadline expired — is the one fixed `APIError` with kind rate-limit and
message "rate limit wait timeout"; no distinct cancellation error exists. -/
theorem acquire_error_is_always_wait_timeout (times : Nat → ℚ)
    (done : Nat → Option DoneCause) (r : RateLimiter) (k fuel : Nat)
    (e : Err) (r' : RateLimiter)
    (h : acquireAux times done r k fuel = some (some e, r')) :
    e = rateLimitWaitError := by
  induction fuel generalizing r k with
  | zero => simp [acquireAux] at h
  | succ fuel ih =>
    rw [acquireAux] at h
    split_ifs at h with h1
    · simp at h
    · revert h
      match hdone : done k with
      | some c => intro h; simp at h; exact h.1.symm
      | none => intro h; exact ih _ _ h

/-- Witness for the amended C3: a drained limiter whose wait is interrupted
by a caller cancellation in the first iteration. -/
theorem acquire_error_is_always_wait_timeout_witness :
    acquireAux (fun _ => 0) (fun _ => some .cancelled)
        { tokens := 0, maxTokens := 1, refillRate := 1, lastRefill := 0,
          waitTimeout := 0 } 0 1 =
      some (some rateLimitWaitError,
        { tokens := 0, maxTokens := 1, refillRate := 1, lastRefill := 0,
          waitTimeout := 0 }) ∧
    rateLimitWaitError = rateLimitWaitError :=
  ⟨by rw [acquireAux]; norm_num [RateLimiter.refill],
    acquire_error_is_always_wait_timeout (fun _ => 0)
      (fun _ => some .cancelled)
      { tokens := 0, maxTokens := 1, refillRate := 1, lastRefill := 0,
        waitTimeout := 0 } 0 1 rateLimitWaitError
      { tokens := 0, maxTokens := 1, refillRate := 1, lastRefill := 0,
        waitTimeout := 0 }
      (by rw [acquireAux]; norm_num [RateLimiter.refill])⟩

/-- Counterexample to C3 as stated: with the caller's cancellation firing
while `Acquire` waits, the returned error is byte-for-byte the same
rate-limit "wait timeout" `APIError` that the wait-timeout path returns —
not a distinct cancellation error (its kind is `rate_limit`). -/
theorem acquire_cancel_equals_timeout_error :
    acquireAux (fun _ => 0) (fun _ => some .cancelled)
        { tokens := 0, maxTokens := 1, refillRate := 1, lastRefill := 0,
          waitTimeout := 0 } 0 1 =
      acquireAux (fun _ => 0) (fun _ => some .waitTimeoutExpired)
        { tokens := 0, maxTokens := 1, refillRate := 1, lastRefill := 0,
          waitTimeout := 0 } 0 1 ∧
    acquireAux (fun _ => 0) (fun _ => some .cancelled)
        { tokens := 0, maxTokens := 1, refillRate := 1, lastRefill := 0,
          waitTimeout := 0 } 0 1 =
      some (some (.api
        { type := .rateLimit, provider := "", statusCode := 0,
          message := "rate limit wait timeout", code := "", param := "",
          retryable := false, retryAfter := 0 }),
        { tokens := 0, maxTokens := 1, refillRate := 1, lastRefill := 0,
          waitTimeout := 0 }) := by
  have h1 : acquireAux (fun _ => 0) (fun _ => some .cancelled)
      { tokens := 0, maxTokens := 1, refillRate := 1, lastRefill := 0,
        waitTimeout := 0 } 0 1 =
      some (some rateLimitWaitError,
        { tokens := 0, maxTokens := 1, refillRate := 1, lastRefill := 0,
          waitTimeout := 0 }) := by
    rw [acquireAux]; norm_num [RateLimiter.refill]
  have h2 : acquireAux (fun _ => 0) (fun _ => some .waitTimeoutExpired)
      { tokens := 0, maxTokens := 1, refillRate := 1, lastRefill := 0,
        waitTimeout := 0 } 0 1 =
      some (some rateLimitWaitError,
        { tokens := 0, maxTokens := 1, refillRate := 1, lastRefill := 0,
          waitTimeout := 0 }) := by
    rw [acquireAux]; norm_num [RateLimiter.refill]
  exact ⟨h1.trans h2.symm, h1⟩

lemma nextN_emptyChannel (k : Nat) :
    ∀ r : StreamReader, r.ch = [] →
      (r.nextN k).1 =
        List.replicate k ((none : Option StreamChunk), false) ∧
      (r.nextN k).2.err = r.err := by
  induction k with
  | zero => intro r _; simp [StreamReader.nextN]
  | succ k ih =>
    intro r hch
    by_cases hc : r.closed
    · have hnext : r.next = (none, false, r) := by
        simp [StreamReader.next, hc]
      rw [StreamReader.nextN, hnext]
      have := ih r hch
      simp only [List.replicate_succ]
      exact ⟨by rw [this.1], this.2⟩
    · have hnext : r.next = (none, false, { r with closed := true }) := by
        simp [StreamReader.next, hc, hch]
      rw [StreamReader.nextN, hnext]
      have := ih { r with closed := true } (by simpa using hch)
      simp only [List.replicate_succ]
      exact ⟨by rw [this.1], this.2⟩

lemma nextN_cleanSegment (k : Nat) :
    ∀ (fs rest : List StreamChunk), (∀ c ∈ fs, c.error = none) →
      ((StreamReader.mk (fs ++ rest) none false).nextN (fs.length + k)).1 =
        fs.map (fun c => ((some c : Option StreamChunk), true)) ++
          ((StreamReader.mk rest none false).nextN k).1 ∧
      ((StreamReader.mk (fs ++ rest) none false).nextN (fs.length + k)).2 =
        ((StreamReader.mk rest none false).nextN k).2 := by
  intro fs
  induction fs with
  | nil => intro rest _; simp
  | cons c fs ih =>
    intro rest hclean
    have hc : c.error = none := hclean c (by simp)
    have hnext : (StreamReader.mk ((c :: fs) ++ rest) none false).next =
        (some c, true, StreamReader.mk (fs ++ rest) none false) := by
      simp [StreamReader.next, hc]
    have harith : (c :: fs).length + k = (fs.length + k) + 1 := by
      simp [List.length_cons]; omega
    rw [harith, StreamReader.nextN, hnext]
    have := ih rest (fun d hd => hclean d (by simp [hd]))
    simp only [List.map_cons, List.cons_append]
    exact ⟨by rw [this.1], this.2⟩

/-- C8: a stream of clean fragments `fs` followed by a clean close yields
exactly those fragments in order via `Next`, then `(nil, false)` on every
further call (`k` of them), with `Err()` returning nil throughout. -/
theorem streamReader_clean_stream_yields_all (fs : List StreamChunk)
    (hclean : ∀ c ∈ fs, c.error = none) (k : Nat) :
    ((StreamReader.mk fs none false).nextN (fs.length + k)).1 =
      fs.map (fun c => ((some c : Option StreamChunk), true)) ++
        List.replicate k ((none : Option StreamChunk), false) ∧
    ((StreamReader.mk fs none false).nextN (fs.length + k)).2.errGo = none := by
  have hmain := nextN_cleanSegment k fs [] hclean
  have hempty := nextN_emptyChannel k (StreamReader.mk [] none false) rfl
  constructor
  · rw [show fs ++ [] = fs from by simp] at hmain
    rw [hmain.1, hempty.1]
  · rw [show fs ++ [] = fs from by simp] at hmain
    rw [StreamReader.errGo, hmain.2, hempty.2]

/-- Witness for C8 with two concrete fragments and two trailing calls. -/
theorem streamReader_clean_stream_yields_all_witness :
    (∀ c ∈ [({ id := "1", provider := "p", model := "m", content := "A",
               toolCalls := [], finishReason := "", usage := ⟨0, 0, 0⟩,
               error := none } : StreamChunk),
             { id := "2", provider := "p", model := "m", content := "B",
               toolCalls := [], finishReason := "stop", usage := ⟨1, 2, 3⟩,
               error := none }], c.error = none) ∧
    (((StreamReader.mk
          [({ id := "1", provider := "p", model := "m", content := "A",
              toolCalls := [], finishReason := "", usage := ⟨0, 0, 0⟩,
              error := none } : StreamChunk),
            { id := "2", provider := "p", model := "m", content := "B",
              toolCalls := [], finishReason := "stop", usage := ⟨1, 2, 3⟩,
              error := none }] none false).nextN (2 + 2)).1 =
      [(some { id := "1", provider := "p", model := "m", content := "A",
               toolCalls := [], finishReason := "", usage := ⟨0, 0, 0⟩,
               error := none }, true),
       (some { id := "2", provider := "p", model := "m", content := "B",
               toolCalls := [], finishReason := "stop", usage := ⟨1, 2, 3⟩,
               error := none }, true),
       (none, false), (none, false)] ∧
    ((StreamReader.mk
          [({ id := "1", provider := "p", model := "m", content := "A",
              toolCalls := [], finishReason := "", usage := ⟨0, 0, 0⟩,
              error := none } : StreamChunk),
            { id := "2", provider := "p", model := "m", content := "B",
              toolCalls := [], finishReason := "stop", usage := ⟨1, 2, 3⟩,
              error := none }] none false).nextN (2 + 2)).2.errGo = none) := by
  refine ⟨by decide, ?_⟩
  have := streamReader_clean_stream_yields_all
    [({ id := "1", provider := "p", model := "m", content := "A",
        toolCalls := [], finishReason := "", usage := ⟨0, 0, 0⟩,
        error := none } : StreamChunk),
      { id := "2", provider := "p", model := "m", content := "B",
        toolCalls := [], finishReason := "stop", usage := ⟨1, 2, 3⟩,
        error := none }] (by decide) 2
  simpa using this

/-- Counterexample to C4 as stated: the reader does not make the error state
terminal.  With a producer that pushes a fragment after the error fragment,
the call after the error surfaces yields that fragment with `ok = true`
instead of `(nil, false)`. -/
theorem streamReader_error_not_terminal :
    ((StreamReader.mk
        [({ id := "", provider := "", model := "", content := "",
            toolCalls := [], finishReason := "", usage := ⟨0, 0, 0⟩,
            error := some (.generic "boom") } : StreamChunk),
          { id := "", provider := "", model := "", content := "A",
            toolCalls := [], finishReason := "", usage := ⟨0, 0, 0⟩,
            error := none }] none false).next.1 = none ∧
      (StreamReader.mk
        [({ id := "", provider := "", model := "", content := "",
            toolCalls := [], finishReason := "", usage := ⟨0, 0, 0⟩,
            error := some (.generic "boom") } : StreamChunk),
          { id := "", provider := "", model := "", content := "A",
            toolCalls := [], finishReason := "", usage := ⟨0, 0, 0⟩,
            error := none }] none false).next.2.1 = false ∧
      (StreamReader.mk
        [({ id := "", provider := "", model := "", content := "",
            toolCalls := [], finishReason := "", usage := ⟨0, 0, 0⟩,
            error := some (.generic "boom") } : StreamChunk),
          { id := "", provider := "", model := "", content := "A",
            toolCalls := [], finishReason := "", usage := ⟨0, 0, 0⟩,
            error := none }] none false).next.2.2.errGo =
        some (.generic "boom")) ∧
    ((StreamReader.mk
        [({ id := "", provider := "", model := "", content := "",
            toolCalls := [], finishReason := "", usage := ⟨0, 0, 0⟩,
            error := some (.generic "boom") } : StreamChunk),
          { id := "", provider := "", model := "", content := "A",
            toolCalls := [], finishReason := "", usage := ⟨0, 0, 0⟩,
            error := none }] none false).next.2.2.next.1 =
      some { id := "", provider := "", model := "", content := "A",
             toolCalls := [], finishReason := "", usage := ⟨0, 0, 0⟩,
             error := none } ∧
      (StreamReader.mk
        [({ id := "", provider := "", model := "", content := "",
            toolCalls := [], finishReason := "", usage := ⟨0, 0, 0⟩,
            error := some (.generic "boom") } : StreamChunk),
          { id := "", provider := "", model := "", content := "A",
            toolCalls := [], finishReason := "", usage := ⟨0, 0, 0⟩,
            error := none }] none false).next.2.2.next.2.1 = true) := by
  refine ⟨⟨?_, ?_, ?_⟩, ?_, ?_⟩ <;> decide

/-- C4 as amended: under the producer contract (the error fragment, if any,
is the final fragment pushed before the channel closes), once the error
fragment arrives `Next` returns `(nil, false)`, `Err` returns the error,
and every subsequent `Next` call also returns `(nil, false)` with the error
retained.  The reader itself does not enforce terminality: fragments pushed
after an error fragment would be yielded again. -/
theorem streamReader_error_final_fragment_terminal (fs : List StreamChunk)
    (ec : StreamChunk) (e : Err) (hclean : ∀ c ∈ fs, c.error = none)
    (he : ec.error = some e) (k : Nat) :
    ((StreamReader.mk (fs ++ [ec]) none false).nextN
        (fs.length + (1 + k))).1 =
      fs.map (fun c => ((some c : Option StreamChunk), true)) ++
        List.replicate (1 + k) ((none : Option StreamChunk), false) ∧
    ((StreamReader.mk (fs ++ [ec]) none false).nextN
        (fs.length + (1 + k))).2.errGo = some e := by
  have hmain := nextN_cleanSegment (1 + k) fs [ec] hclean
  have hnext : (StreamReader.mk [ec] none false).next =
      (none, false, StreamReader.mk [] (some e) false) := by
    simp [StreamReader.next, he]
  have htail : ((StreamReader.mk [ec] none false).nextN (1 + k)).1 =
      List.replicate (1 + k) ((none : Option StreamChunk), false) ∧
      ((StreamReader.mk [ec] none false).nextN (1 + k)).2.err = some e := by
    have hempty := nextN_emptyChannel k (StreamReader.mk [] (some e) false) rfl
    rw [show 1 + k = k + 1 from by omega, StreamReader.nextN, hnext]
    constructor
    · rw [show k + 1 = 1 + k from by omega, List.replicate_add]
      simp only [List.replicate_one, List.singleton_append]
      rw [hempty.1]
    · exact hempty.2
  constructor
  · rw [hmain.1, htail.1]
  · rw [StreamReader.errGo, hmain.2]
    exact htail.2

/-- Witness for the amended C4: one clean fragment, then an error fragment,
then two further `Next` calls. -/
theorem streamReader_error_final_fragment_terminal_witness :
    (((StreamReader.mk
        [({ id := "", provider := "", model := "", content := "A",
            toolCalls := [], finishReason := "", usage := ⟨0, 0, 0⟩,
            error := none } : StreamChunk),
          { id := "", provider := "", model := "", content := "",
            toolCalls := [], finishReason := "", usage := ⟨0, 0, 0⟩,
            error := some (.generic "boom") }] none false).nextN
        (1 + (1 + 2))).1 =
      [(some { id := "", provider := "", model := "", content := "A",
               toolCalls := [], finishReason := "", usage := ⟨0, 0, 0⟩,
               error := none }, true),
       (none, false), (none, false), (none, false)] ∧
    ((StreamReader.mk
        [({ id := "", provider := "", model := "", content := "A",
            toolCalls := [], finishReason := "", usage := ⟨0, 0, 0⟩,
            error := none } : StreamChunk),
          { id := "", provider := "", model := "", content := "",
            toolCalls := [], finishReason := "", usage := ⟨0, 0, 0⟩,
            error := some (.generic "boom") }] none false).nextN
        (1 + (1 + 2))).2.errGo = some (.generic "boom")) := by
  have := streamReader_error_final_fragment_terminal
    [({ id := "", provider := "", model := "", content := "A",
        toolCalls := [], finishReason := "", usage := ⟨0, 0, 0⟩,
        error := none } : StreamChunk)]
    { id := "", provider := "", model := "", content := "",
      toolCalls := [], finishReason := "", usage := ⟨0, 0, 0⟩,
      error := some (.generic "boom") } (.generic "boom") (by decide) rfl 2
  simpa using this

/-- Counterexample to C9 as stated: `New` on an unknown identifier fails
with a plain `fmt.Errorf` error, not a Structured Error (`APIError`) — here
on the empty registry, the returned error is the unstructured message
`"unknown provider: nope (available: [])"`. -/
theorem registry_unknown_not_structured :
    gollmxNew (⟨[]⟩ : Registry Unit) "nope" (fun _ => Except.ok (0 : Nat)) =
      .error (.generic "unknown provider: nope (available: [])") ∧
    Err.isStructured (.generic "unknown provider: nope (available: [])") =
      false := by
  constructor
  · rfl
  · rfl

/-- C9 as amended: for every identifier absent from the registry, `New`
fails — without panicking, the embedding is a total function into
`Except` — with a plain (unstructured) error whose message names the
identifier and enumerates the currently registered identifiers in Go's
`%v` slice format. -/
theorem registry_unknown_enumerates_providers (reg : Registry Unit)
    (id : String) (run : Unit → Except Err Nat)
    (h : reg.lookup id = none) :
    gollmxNew reg id run =
      .error (.generic ("unknown provider: " ++ id ++ " (available: " ++
        fmtStringSlice reg.providers ++ ")")) ∧
    ∀ e, gollmxNew reg id run = .error e → e.isStructured = false := by
  have hmain : gollmxNew reg id run =
      .error (.generic ("unknown provider: " ++ id ++ " (available: " ++
        fmtStringSlice reg.providers ++ ")")) := by
    rw [gollmxNew, h]
  refine ⟨hmain, ?_⟩
  intro e he
  rw [hmain] at he
  cases he
  rfl

/-- Witness for the amended C9: a registry holding one provider "mock" and
the absent identifier "nope". -/
theorem registry_unknown_enumerates_providers_witness :
    (Registry.lookup (⟨[("mock", ())]⟩ : Registry Unit) "nope" = none) ∧
    (gollmxNew (⟨[("mock", ())]⟩ : Registry Unit) "nope"
        (fun _ => Except.ok (0 : Nat)) =
      .error (.generic ("unknown provider: " ++ "nope" ++ " (available: " ++
        fmtStringSlice (Registry.providers (⟨[("mock", ())]⟩ : Registry Unit))
          ++ ")")) ∧
    ∀ e, gollmxNew (⟨[("mock", ())]⟩ : Registry Unit) "nope"
        (fun _ => Except.ok (0 : Nat)) = .error e →
      e.isStructured = false) :=
  ⟨rfl,
    registry_unknown_enumerates_providers (⟨[("mock", ())]⟩ : Registry Unit)
      "nope" (fun _ => Except.ok (0 : Nat)) rfl⟩
